import Mathlib

/-!
Shallow embedding of the TalentScout interview state machine.

The repository implements the interview conversation loop twice:
* `1_Candidate_Screener.py` — the Streamlit driver (`main`, `TechnicalAssessorAgent`);
  modelled below in namespace `Screener`.
* `interview_graph.py` — the LangGraph node functions (`generate_questions_node`,
  `analyze_answer_node`, `generate_summary_node`, `generate_easier_question_node`,
  `should_continue`); modelled below in namespace `Graph`.

The external text-generation service is opaque: every function that calls it is
parameterised by the call's outcome (`Option String` for a plain text reply that
may fail, `Except String String` when the Python code inspects the exception text,
and a parsed-JSON shape for the answer analyzer).  Python `try/except` around the
call is then the `none` / `.error` branch.  Python dicts (insertion-ordered,
last-write-wins) are association lists with unique keys via `dictInsert`.
-/

/-- ASCII whitespace as recognised by Python `str.strip()` / `\s` (the Unicode
extras do not occur in any string these claims touch). -/
def isPySpace (c : Char) : Bool :=
  c = ' ' || c = '\t' || c = '\n' || c = '\r' || c = '\x0b' || c = '\x0c'

/-- `str.strip()` on a character list: drop leading and trailing whitespace. -/
def stripChars (l : List Char) : List Char :=
  ((l.dropWhile isPySpace).reverse.dropWhile isPySpace).reverse

/-- Python `str.strip()`. -/
def pyStrip (s : String) : String :=
  ⟨stripChars s.data⟩

/-- Substring containment (`sub in s` in Python). -/
def strContains (s sub : String) : Prop :=
  sub.data <:+: s.data

instance (s sub : String) : Decidable (strContains s sub) := by
  unfold strContains; infer_instance

/-- `re.findall(r'\d+\.\s*(.*)', text)`: scan left to right; at each position a
match is one or more digits, a literal dot, a greedy (possibly multi-line)
whitespace run, then a capture running to the end of the line; scanning resumes
after the capture. -/
def findNumbered (l : List Char) : List String :=
  match l with
  | [] => []
  | c :: cs =>
    if c.isDigit then
      match hds : cs.dropWhile Char.isDigit with
      | '.' :: rest =>
        let body := rest.dropWhile isPySpace
        ⟨body.takeWhile (· ≠ '\n')⟩ :: findNumbered (body.dropWhile (· ≠ '\n'))
      | _ => findNumbered cs
    else
      findNumbered cs
termination_by l.length
decreasing_by
  · have hgen : ∀ (p : Char → Bool) (l2 : List Char),
        (l2.dropWhile p).length ≤ l2.length := by
      intro p l2
      induction l2 with
      | nil => simp
      | cons a t ih =>
        by_cases h : p a <;> simp [List.dropWhile_cons, h] <;> omega
    have h1 : (rest.dropWhile isPySpace).length ≤ rest.length :=
      hgen isPySpace rest
    have h2 : ((rest.dropWhile isPySpace).dropWhile (· ≠ '\n')).length ≤
        (rest.dropWhile isPySpace).length :=
      hgen (· ≠ '\n') (rest.dropWhile isPySpace)
    have h3 : (cs.dropWhile Char.isDigit).length ≤ cs.length :=
      hgen Char.isDigit cs
    rw [hds] at h3
    simp only [List.length_cons] at h3 ⊢
    omega
  · simp only [List.length_cons]; omega
  · simp only [List.length_cons]; omega

/-- A chat transcript turn (`{"role": ..., "content": ...}`). -/
structure Msg where
  role : String
  content : String
deriving DecidableEq

/-- `messages[-1] = x` (Python): replace the last element. -/
def setLast {α : Type} (l : List α) (x : α) : List α :=
  l.set (l.length - 1) x

/-- Python dict read `d.get(k)`. -/
def dictGet {α : Type} (d : List (String × α)) (k : String) : Option α :=
  match d with
  | [] => none
  | p :: ps => if p.1 = k then some p.2 else dictGet ps k

/-- Python dict write `d[k] = v`: overwrite in place if the key exists
(keeping its position), otherwise append. -/
def dictInsert {α : Type} (d : List (String × α)) (k : String) (v : α) :
    List (String × α) :=
  match d with
  | [] => [(k, v)]
  | p :: ps => if p.1 = k then (k, v) :: ps else p :: dictInsert ps k v

/-- Python `d[k] = f(d[k])` on an existing entry (no-op if the key is absent,
which is unreachable at the call sites). -/
def dictModify {α : Type} (d : List (String × α)) (k : String) (f : α → α) :
    List (String × α) :=
  match d with
  | [] => []
  | p :: ps => if p.1 = k then (p.1, f p.2) :: ps else p :: dictModify ps k f

/-- The fixed two-question fallback list (`fallback_questions` in both files). -/
def fallback_questions : List String :=
  ["Could you describe a challenging project you've worked on with your listed technologies?",
   "How do you stay updated with the latest trends in your tech stack?"]

/-- The fixed easier-question fallback used on generation failure in both files. -/
def easierFallbackQuestion : String :=
  "Could you please describe a core concept related to your tech stack?"

namespace Screener

/-- `TechnicalAssessorAgent.generate_questions`: parse the model reply as a
numbered list; zero items or a failed call yield the fixed fallback list,
otherwise each item is stripped.  `outcome` is the generation call's result
(`none` = the call raised). -/
def generate_questions (outcome : Option String) : List String :=
  match outcome with
  | none => fallback_questions
  | some resp =>
    let qs := findNumbered resp.data
    if qs = [] then fallback_questions else qs.map pyStrip

/-- `TechnicalAssessorAgent.generate_easier_question`: the stripped model reply,
or the fixed fallback question on failure. -/
def generate_easier_question (outcome : Option String) : String :=
  match outcome with
  | some t => pyStrip t
  | none => easierFallbackQuestion

/-- `TechnicalAssessorAgent.generate_follow_up_question`: prefixes the stripped
reply with "Follow-up: ", or returns `None` on failure.  A successful result is
never the empty string, so Python's truthiness test on it coincides with
non-`None`-ness. -/
def generate_follow_up_question (outcome : Option String) : Option String :=
  outcome.map (fun t => "Follow-up: " ++ pyStrip t)

/-- `TechnicalAssessorAgent.summarize_performance`: the answers dict maps each
question to its plain answer string; empty answers short-circuit to a fixed
literal before any generation call; a failed call yields a fixed literal that
ignores the exception text. -/
def summarize_performance (answers : List (String × String))
    (gen : Except String String) : String :=
  if answers = [] then "No technical answers were provided."
  else
    match gen with
    | Except.ok t => pyStrip t
    | Except.error _ => "Could not generate AI summary due to an error."

/-- `st.session_state.conversation_stage` restricted to the interview loop. -/
inductive Stage
  | inTechQuestions
  | concluding
deriving DecidableEq

/-- The Streamlit session state owned by `main` during the interview. -/
structure SState where
  technical_questions : List String
  technical_answers : List (String × String)
  tech_question_index : Nat
  is_awaiting_follow_up_answer : Bool
  messages : List Msg
  conversation_stage : Stage
deriving DecidableEq

def conclusionMessage : String :=
  "Thank you for your answers. That's all the questions I have for now. The hiring team will review your responses and get in touch with you regarding the next steps."

def introMessage : String :=
  "Thank you for providing your details. Now, based on your tech stack, I have a few technical questions for you."

/-- The tail of the chat handler (`main`, the "Ask the next main question if
appropriate" block): if not awaiting a follow-up, either ask the next question
or conclude. -/
def afterCheck (s : SState) : SState :=
  if s.is_awaiting_follow_up_answer then s
  else if s.tech_question_index < s.technical_questions.length then
    { s with messages := s.messages ++
        [⟨"assistant", s.technical_questions.getD s.tech_question_index ""⟩] }
  else
    { s with conversation_stage := Stage.concluding,
             messages := s.messages ++ [⟨"assistant", conclusionMessage⟩] }

/-- The "New Conversational Logic" block of the chat handler in `main`: record
the user turn, then either fold a follow-up answer in (Case 1) or record a main
answer and consult the follow-up generator (Case 2). -/
def advCore (s : SState) (prompt : String) (fuGen : Option String) : SState :=
  let s1 : SState := { s with messages := s.messages ++ [⟨"user", prompt⟩] }
  if s1.is_awaiting_follow_up_answer then
    let lastQ := s1.technical_questions.getD s1.tech_question_index ""
    { s1 with
      technical_answers := dictModify s1.technical_answers lastQ
        (fun a => a ++ "\nFollow-up Answer: " ++ prompt),
      is_awaiting_follow_up_answer := false,
      tech_question_index := s1.tech_question_index + 1 }
  else
    let curQ := s1.technical_questions.getD s1.tech_question_index ""
    let answers1 := dictInsert s1.technical_answers curQ prompt
    match generate_follow_up_question fuGen with
    | some f =>
      { s1 with technical_answers := answers1,
                messages := s1.messages ++ [⟨"assistant", f⟩],
                is_awaiting_follow_up_answer := true }
    | none =>
      { s1 with technical_answers := answers1,
                tech_question_index := s1.tech_question_index + 1 }

/-- One chat submission in `main` (the `st.chat_input` branch).  `prompt` is the
user's text; `fuGen` is the outcome of the follow-up generation call, which is
only consulted on the main-question path. -/
def advance (s : SState) (prompt : String) (fuGen : Option String) : SState :=
  afterCheck (advCore s prompt fuGen)

/-- The "Easier Question" button handler in `main`: replace the question at the
cursor and overwrite the last transcript turn. -/
def easierClick (s : SState) (gen : Option String) : SState :=
  let newQ := generate_easier_question gen
  { s with
    technical_questions := s.technical_questions.set s.tech_question_index newQ,
    messages := setLast s.messages ⟨"assistant", newQ⟩ }

/-- Session state right after question generation (`generating_tech_questions`
stage): index 0, no answers, the intro plus the first question in the chat. -/
def initState (qs : List String) : SState :=
  { technical_questions := qs
    technical_answers := []
    tech_question_index := 0
    is_awaiting_follow_up_answer := false
    messages := [⟨"assistant", introMessage⟩, ⟨"assistant", qs.getD 0 ""⟩]
    conversation_stage := Stage.inTechQuestions }

/-- One user interaction in the interview loop.  Both the chat input and the
"Easier Question" button exist only while the stage is not `concluding`. -/
inductive Step : SState → SState → Prop where
  | advanceStep (s : SState) (prompt : String) (fuGen : Option String)
      (h : s.conversation_stage = Stage.inTechQuestions) :
      Step s (advance s prompt fuGen)
  | easierStep (s : SState) (gen : Option String)
      (h : s.conversation_stage = Stage.inTechQuestions) :
      Step s (easierClick s gen)

/-- Reflexive-transitive closure of `Step`. -/
inductive Reachable : SState → SState → Prop where
  | refl (s : SState) : Reachable s s
  | tail {s t u : SState} : Reachable s t → Step t u → Reachable s u

end Screener

namespace Graph

/-- One entry of `technical_answers` in `InterviewState`. -/
structure AnswerRecord where
  answer : String
  sentiment : String
deriving DecidableEq

/-- `InterviewState` from `interview_graph.py`. -/
structure GState where
  technical_questions : List String
  technical_answers : List (String × AnswerRecord)
  tech_question_index : Nat
  current_question_key : String
  is_awaiting_follow_up_answer : Bool
  user_input : String
  messages : List Msg
  final_summary : Option String
deriving DecidableEq

/-- Outcome of the analyzer's JSON chain call: `none` = the call or the JSON
parse raised; otherwise the "sentiment" field (if present) and the
"follow_up_question" field (absent or JSON `null` both map to `none`). -/
abbrev Analysis := Option (Option String × Option String)

/-- `analysis.get("sentiment", "N/A")`, with "N/A" also on a raised call. -/
def analysisSentiment (outcome : Analysis) : String :=
  match outcome with
  | none => "N/A"
  | some (s, _) => s.getD "N/A"

/-- `analysis.get("follow_up_question")`, `None` on a raised call. -/
def analysisFollowUp (outcome : Analysis) : Option String :=
  match outcome with
  | none => none
  | some (_, fu) => fu

/-- `generate_questions_node`: the numbered-list parse of the reply (fallback
list on zero items or failure), each entry stripped. -/
def generate_questions_node_qs (outcome : Option String) : List String :=
  (match outcome with
   | none => fallback_questions
   | some resp =>
     let qs := findNumbered resp.data
     if qs = [] then fallback_questions else qs).map pyStrip

/-- `analyze_answer_node`. -/
def analyze_answer_node (st : GState) (outcome : Analysis) : GState :=
  if st.is_awaiting_follow_up_answer then
    { st with
      technical_answers := dictModify st.technical_answers st.current_question_key
        (fun a => { a with answer := a.answer ++ "\n\n*Follow-up Answer:*\n" ++ st.user_input }),
      is_awaiting_follow_up_answer := false,
      tech_question_index := st.tech_question_index + 1 }
  else
    let answers1 := dictInsert st.technical_answers st.current_question_key
      ⟨st.user_input, analysisSentiment outcome⟩
    match analysisFollowUp outcome with
    | some f =>
      if f = "" then
        { st with technical_answers := answers1,
                  is_awaiting_follow_up_answer := false,
                  tech_question_index := st.tech_question_index + 1 }
      else
        { st with technical_answers := answers1,
                  messages := st.messages ++ [⟨"assistant", f⟩],
                  is_awaiting_follow_up_answer := true }
    | none =>
      { st with technical_answers := answers1,
                is_awaiting_follow_up_answer := false,
                tech_question_index := st.tech_question_index + 1 }

/-- The three labels `should_continue` can route to. -/
inductive Route
  | pauseEnd
  | generateSummary
  | askNextQuestion
deriving DecidableEq

/-- `should_continue`. -/
def should_continue (st : GState) : Route :=
  if st.is_awaiting_follow_up_answer then Route.pauseEnd
  else if st.technical_questions.length ≤ st.tech_question_index then
    Route.generateSummary
  else Route.askNextQuestion

/-- `generate_summary_node`; `gen` is the summary chain's outcome, with the
exception's text in the `.error` case. -/
def generate_summary_node (st : GState) (gen : Except String String) : GState :=
  if st.technical_answers = [] then
    { st with final_summary := some "No technical answers were provided." }
  else
    match gen with
    | Except.ok t => { st with final_summary := some t }
    | Except.error e =>
      let failText := "Could not generate AI summary due to an error: " ++ e
      { st with final_summary := some failText }

/-- `generate_easier_question_node`. -/
def generate_easier_question_node (st : GState) (gen : Option String) : GState :=
  let newQ := gen.getD easierFallbackQuestion
  { st with
    technical_questions := st.technical_questions.set st.tech_question_index newQ,
    messages := setLast st.messages ⟨"assistant", newQ⟩ }

/-- The caller-side preparation of an `analyze_answer` invocation: store the
user's text and the current question's key in the state. -/
def prepInput (st : GState) (input : String) : GState :=
  { st with
    user_input := input,
    current_question_key := st.technical_questions.getD st.tech_question_index "" }

/-- One graph invocation for a user answer: the driver stores the input and the
current question key, `analyze_answer_node` runs, and the conditional edge
routes to `generate_summary_node` exactly when `should_continue` says so. -/
def advance (st : GState) (input : String) (outcome : Analysis)
    (gen : Except String String) : GState :=
  match should_continue (analyze_answer_node (prepInput st input) outcome) with
  | Route.generateSummary =>
    generate_summary_node (analyze_answer_node (prepInput st input) outcome) gen
  | _ => analyze_answer_node (prepInput st input) outcome

/-- The state after `k` answers. -/
def advanceSeq (st : GState) (inputs : Nat → String) (outcomes : Nat → Analysis)
    (gen : Except String String) : Nat → GState
  | 0 => st
  | k + 1 =>
    advance (advanceSeq st inputs outcomes gen k) (inputs k) (outcomes k) gen

/-- State entering the question loop: questions generated, cursor 0, the first
question asked. -/
def initState (qs : List String) : GState :=
  { technical_questions := qs
    technical_answers := []
    tech_question_index := 0
    current_question_key := ""
    is_awaiting_follow_up_answer := false
    user_input := ""
    messages := [⟨"assistant", qs.getD 0 ""⟩]
    final_summary := none }

end Graph

namespace Screener

/-- Invariant of the interview loop: the cursor stays within
`[0, len(questions)]`, is strictly below the length while the chat is live, and
the follow-up flag is cleared once the session concludes. -/
def Inv (s : SState) : Prop :=
  s.tech_question_index ≤ s.technical_questions.length ∧
  (s.conversation_stage = Stage.inTechQuestions →
    s.tech_question_index < s.technical_questions.length) ∧
  (s.conversation_stage = Stage.concluding →
    s.is_awaiting_follow_up_answer = false)

end Screener

/-- A failed generation outcome, named for readability of concrete witnesses. -/
def gnone : Option String := none

/-- A session paused on a follow-up (`FOLLOW_UP_PENDING`), used as concrete
input for the claims about that state. -/
def c9State : Screener.SState :=
  { technical_questions := ["Explain indexing."]
    technical_answers := [("Explain indexing.", "Not sure.")]
    tech_question_index := 0
    is_awaiting_follow_up_answer := true
    messages := [⟨"assistant", "Explain indexing."⟩, ⟨"user", "Not sure."⟩,
                 ⟨"assistant", "Follow-up: Try defining an index."⟩]
    conversation_stage := Screener.Stage.inTechQuestions }

/-- A graph session paused on a follow-up for question "Q1". -/
def c3State : Graph.GState :=
  { technical_questions := ["Q1"]
    technical_answers := [("Q1", ⟨"A1", "Neutral"⟩)]
    tech_question_index := 0
    current_question_key := "Q1"
    is_awaiting_follow_up_answer := true
    user_input := ""
    messages := [⟨"assistant", "Q1"⟩]
    final_summary := none }

theorem dictGet_dictInsert_self {α : Type} (d : List (String × α)) (k : String)
    (v : α) : dictGet (dictInsert d k v) k = some v := by
  induction d with
  | nil => simp [dictInsert, dictGet]
  | cons p ps ih =>
    by_cases h : p.1 = k
    · simp [dictInsert, dictGet, h]
    · simp [dictInsert, dictGet, h, ih]

theorem dictGet_dictInsert_ne {α : Type} (d : List (String × α)) (k k' : String)
    (v : α) (h : k' ≠ k) : dictGet (dictInsert d k v) k' = dictGet d k' := by
  induction d with
  | nil => simp [dictInsert, dictGet, Ne.symm h]
  | cons p ps ih =>
    by_cases hp : p.1 = k
    · subst hp
      simp [dictInsert, dictGet, Ne.symm h]
    · simp only [dictInsert, hp, if_false, dictGet]
      by_cases hp' : p.1 = k'
      · simp [hp']
      · simp [hp', ih]

theorem dictGet_dictModify_self {α : Type} (d : List (String × α)) (k : String)
    (f : α → α) : dictGet (dictModify d k f) k = (dictGet d k).map f := by
  induction d with
  | nil => simp [dictModify, dictGet]
  | cons p ps ih =>
    by_cases h : p.1 = k
    · simp [dictModify, dictGet, h]
    · simp [dictModify, dictGet, h, ih]

theorem dictGet_dictModify_ne {α : Type} (d : List (String × α)) (k k' : String)
    (f : α → α) (h : k' ≠ k) : dictGet (dictModify d k f) k' = dictGet d k' := by
  induction d with
  | nil => simp [dictModify, dictGet]
  | cons p ps ih =>
    by_cases hp : p.1 = k
    · subst hp
      simp [dictModify, dictGet, Ne.symm h]
    · simp only [dictModify, hp, if_false, dictGet]
      by_cases hp' : p.1 = k'
      · simp [hp']
      · simp [hp', ih]

theorem dictInsert_length_mem {α : Type} (d : List (String × α)) (k : String)
    (v : α) (h : (dictGet d k).isSome) :
    (dictInsert d k v).length = d.length := by
  induction d with
  | nil => simp [dictGet] at h
  | cons p ps ih =>
    by_cases hp : p.1 = k
    · simp [dictInsert, hp]
    · simp only [dictGet, hp, if_false] at h
      simp [dictInsert, hp, ih h]

theorem dropWhile_idem {α : Type} (p : α → Bool) (l : List α) :
    (l.dropWhile p).dropWhile p = l.dropWhile p := by
  induction l with
  | nil => simp
  | cons a l ih =>
    by_cases h : p a <;> simp [List.dropWhile_cons, h, ih]

theorem dropWhile_head_false {α : Type} (p : α → Bool) (l : List α) (x : α)
    (xs : List α) (h : l.dropWhile p = x :: xs) : p x = false := by
  induction l with
  | nil => simp at h
  | cons a l ih =>
    by_cases hp : p a
    · rw [List.dropWhile_cons] at h
      simp only [hp, if_true] at h
      exact ih h
    · rw [List.dropWhile_cons] at h
      simp only [hp, if_false] at h
      cases h
      simpa using hp

theorem exists_dropWhile_append {α : Type} (p : α → Bool) (l : List α) :
    ∃ t, l = t ++ l.dropWhile p := by
  induction l with
  | nil => exact ⟨[], rfl⟩
  | cons a l ih =>
    by_cases h : p a
    · obtain ⟨t, ht⟩ := ih
      refine ⟨a :: t, ?_⟩
      simp only [List.dropWhile_cons, h, if_true, List.cons_append]
      exact congrArg (a :: ·) ht
    · exact ⟨[], by simp [List.dropWhile_cons, h]⟩

theorem dropWhile_stripChars (l : List Char) :
    (stripChars l).dropWhile isPySpace = stripChars l := by
  cases hs : stripChars l with
  | nil => simp
  | cons x xs =>
    have hx : isPySpace x = false := by
      obtain ⟨t, ht⟩ :=
        exists_dropWhile_append isPySpace (l.dropWhile isPySpace).reverse
      have ha : l.dropWhile isPySpace = stripChars l ++ t.reverse := by
        have h2 := congrArg List.reverse ht
        simpa [stripChars, List.reverse_append] using h2
      apply dropWhile_head_false isPySpace l x (xs ++ t.reverse)
      rw [ha, hs]
      simp
    simp [List.dropWhile_cons, hx]

theorem stripChars_idem (l : List Char) :
    stripChars (stripChars l) = stripChars l := by
  have hhead : (stripChars l).dropWhile isPySpace = stripChars l :=
    dropWhile_stripChars l
  show (((stripChars l).dropWhile isPySpace).reverse.dropWhile isPySpace).reverse
      = stripChars l
  rw [hhead]
  show ((((l.dropWhile isPySpace).reverse.dropWhile
      isPySpace).reverse).reverse.dropWhile isPySpace).reverse = _
  rw [List.reverse_reverse, dropWhile_idem]
  rfl

theorem pyStrip_idem (s : String) : pyStrip (pyStrip s) = pyStrip s := by
  show String.mk (stripChars (String.mk (stripChars s.data)).data) = _
  rw [show (String.mk (stripChars s.data)).data = stripChars s.data from rfl,
    stripChars_idem]
  rfl

namespace Screener

/-- `afterCheck` only appends transcript turns and possibly concludes: the
questions, answers, cursor and follow-up flag are untouched. -/
theorem afterCheck_fields (s : SState) :
    (afterCheck s).technical_questions = s.technical_questions ∧
    (afterCheck s).technical_answers = s.technical_answers ∧
    (afterCheck s).tech_question_index = s.tech_question_index ∧
    (afterCheck s).is_awaiting_follow_up_answer = s.is_awaiting_follow_up_answer := by
  unfold afterCheck
  split
  · exact ⟨rfl, rfl, rfl, rfl⟩
  · split <;> exact ⟨rfl, rfl, rfl, rfl⟩

/-- Case 1 of the chat handler, as an explicit record. -/
theorem advCore_followUpCase (s : SState) (p : String) (fu : Option String)
    (h : s.is_awaiting_follow_up_answer = true) :
    advCore s p fu =
      { s with
        messages := s.messages ++ [⟨"user", p⟩],
        technical_answers := dictModify s.technical_answers
          (s.technical_questions.getD s.tech_question_index "")
          (fun a => a ++ "\nFollow-up Answer: " ++ p),
        is_awaiting_follow_up_answer := false,
        tech_question_index := s.tech_question_index + 1 } := by
  simp [advCore, h]

/-- Case 2 with a successful follow-up generation, as an explicit record. -/
theorem advCore_mainCase_some (s : SState) (p : String) (t : String)
    (h : s.is_awaiting_follow_up_answer = false) :
    advCore s p (some t) =
      { s with
        messages := s.messages ++ [⟨"user", p⟩, ⟨"assistant", "Follow-up: " ++ pyStrip t⟩],
        technical_answers := dictInsert s.technical_answers
          (s.technical_questions.getD s.tech_question_index "") p,
        is_awaiting_follow_up_answer := true } := by
  simp [advCore, h, generate_follow_up_question]

/-- Case 2 with a failed follow-up generation, as an explicit record. -/
theorem advCore_mainCase_none (s : SState) (p : String)
    (h : s.is_awaiting_follow_up_answer = false) :
    advCore s p none =
      { s with
        messages := s.messages ++ [⟨"user", p⟩],
        technical_answers := dictInsert s.technical_answers
          (s.technical_questions.getD s.tech_question_index "") p,
        tech_question_index := s.tech_question_index + 1 } := by
  simp [advCore, h, generate_follow_up_question]

theorem inv_afterCheck (s : SState)
    (hle : s.tech_question_index ≤ s.technical_questions.length)
    (hstage : s.conversation_stage = Stage.inTechQuestions)
    (haw : s.is_awaiting_follow_up_answer = true →
      s.tech_question_index < s.technical_questions.length) :
    Inv (afterCheck s) := by
  unfold afterCheck Inv
  split
  next ha => exact ⟨hle, fun _ => haw ha, fun hc => by rw [hstage] at hc; cases hc⟩
  next ha => split <;> (refine ⟨?_, ?_, ?_⟩ <;> simp_all)

theorem inv_step {s s' : SState} (hstep : Step s s') (hinv : Inv s) : Inv s' := by
  obtain ⟨h1, h2, h3⟩ := hinv
  cases hstep with
  | easierStep gen h =>
    refine ⟨?_, ?_, ?_⟩ <;>
      simp only [easierClick, List.length_set] <;>
      [exact h1; exact h2; exact h3]
  | advanceStep prompt fuGen h =>
    have hidx : s.tech_question_index < s.technical_questions.length := h2 h
    unfold advance
    cases ha : s.is_awaiting_follow_up_answer with
    | true =>
      rw [advCore_followUpCase s prompt fuGen ha]
      exact inv_afterCheck _ (by simpa using hidx) (by simpa using h)
        (by intro hcon; simp at hcon)
    | false =>
      cases fuGen with
      | some t =>
        rw [advCore_mainCase_some s prompt t ha]
        exact inv_afterCheck _ (by simpa using h1) (by simpa using h)
          (fun _ => by simpa using hidx)
      | none =>
        rw [advCore_mainCase_none s prompt ha]
        exact inv_afterCheck _ (by simpa using hidx) (by simpa using h)
          (by intro hcon; simp [ha] at hcon)

theorem inv_initState (qs : List String) (hqs : qs ≠ []) : Inv (initState qs) := by
  refine ⟨?_, ?_, ?_⟩
  · simp [initState]
  · intro _
    simpa [initState] using List.length_pos.mpr hqs
  · intro hc
    simp [initState] at hc

theorem inv_reachable (qs : List String) (hqs : qs ≠ []) (s : SState)
    (h : Reachable (initState qs) s) : Inv s := by
  induction h with
  | refl => exact inv_initState qs hqs
  | tail _ hstep ih => exact inv_step hstep ih

/-- A single interaction moves the cursor by zero or one. -/
theorem step_index {s s' : SState} (hstep : Step s s') :
    s'.tech_question_index = s.tech_question_index ∨
    s'.tech_question_index = s.tech_question_index + 1 := by
  cases hstep with
  | easierStep gen h =>
    left; rfl
  | advanceStep prompt fuGen h =>
    show (afterCheck (advCore s prompt fuGen)).tech_question_index = _ ∨
      (afterCheck (advCore s prompt fuGen)).tech_question_index = _
    rw [(afterCheck_fields (advCore s prompt fuGen)).2.2.1]
    cases ha : s.is_awaiting_follow_up_answer with
    | true =>
      right
      rw [advCore_followUpCase s prompt fuGen ha]
    | false =>
      cases fuGen with
      | some t =>
        left
        rw [advCore_mainCase_some s prompt t ha]
      | none =>
        right
        rw [advCore_mainCase_none s prompt ha]

end Screener

namespace Graph

/-- `generate_summary_node` writes `final_summary` (always to `some _`) and
leaves every other field alone. -/
theorem gsummary_fields (st : GState) (gen : Except String String) :
    (generate_summary_node st gen).technical_questions = st.technical_questions ∧
    (generate_summary_node st gen).technical_answers = st.technical_answers ∧
    (generate_summary_node st gen).tech_question_index = st.tech_question_index ∧
    (generate_summary_node st gen).is_awaiting_follow_up_answer =
      st.is_awaiting_follow_up_answer ∧
    (generate_summary_node st gen).final_summary.isSome = true := by
  unfold generate_summary_node
  split
  · exact ⟨rfl, rfl, rfl, rfl, rfl⟩
  · cases gen <;> exact ⟨rfl, rfl, rfl, rfl, rfl⟩

/-- Case 1 of `analyze_answer_node` (an answer to a pending follow-up), as an
explicit record. -/
theorem analyze_followUpCase (st : GState) (outcome : Analysis)
    (h : st.is_awaiting_follow_up_answer = true) :
    analyze_answer_node st outcome =
      { st with
        technical_answers := dictModify st.technical_answers
          st.current_question_key
          (fun a => { a with
            answer := a.answer ++ "\n\n*Follow-up Answer:*\n" ++ st.user_input }),
        is_awaiting_follow_up_answer := false,
        tech_question_index := st.tech_question_index + 1 } := by
  simp [analyze_answer_node, h]

/-- Case 2 of `analyze_answer_node` always records
`{answer: user_input, sentiment: parsed-or-"N/A"}` under the current question
key, whatever the analyzer outcome. -/
theorem analyze_mainCase_answers (st : GState) (outcome : Analysis)
    (h : st.is_awaiting_follow_up_answer = false) :
    (analyze_answer_node st outcome).technical_answers =
      dictInsert st.technical_answers st.current_question_key
        ⟨st.user_input, analysisSentiment outcome⟩ := by
  unfold analyze_answer_node
  rw [if_neg (by simp [h])]
  cases hfu : analysisFollowUp outcome with
  | none => rfl
  | some f =>
    by_cases hf : f = "" <;> simp [hf]

/-- Fields of `analyze_answer_node` that never change. -/
theorem analyze_frame (st : GState) (outcome : Analysis) :
    (analyze_answer_node st outcome).technical_questions = st.technical_questions ∧
    (analyze_answer_node st outcome).final_summary = st.final_summary ∧
    (analyze_answer_node st outcome).user_input = st.user_input ∧
    (analyze_answer_node st outcome).current_question_key = st.current_question_key := by
  unfold analyze_answer_node
  split
  · exact ⟨rfl, rfl, rfl, rfl⟩
  · cases hfu : analysisFollowUp outcome with
    | none => exact ⟨rfl, rfl, rfl, rfl⟩
    | some f =>
      by_cases hf : f = "" <;> simp [hf]

/-- How `analyze_answer_node` acts on a prepared main-question answer with no
follow-up: the answer record is written, the flag stays false, the cursor
advances. -/
theorem analyze_prep_no_followup (st : GState) (input : String)
    (outcome : Analysis) (ha : st.is_awaiting_follow_up_answer = false)
    (hfu : analysisFollowUp outcome = none) :
    analyze_answer_node (prepInput st input) outcome =
      { st with
        user_input := input,
        current_question_key := st.technical_questions.getD st.tech_question_index "",
        technical_answers := dictInsert st.technical_answers
          (st.technical_questions.getD st.tech_question_index "")
          ⟨input, analysisSentiment outcome⟩,
        is_awaiting_follow_up_answer := false,
        tech_question_index := st.tech_question_index + 1 } := by
  simp [analyze_answer_node, prepInput, ha, hfu]

/-- One no-follow-up answer from `MAIN_QUESTION_PENDING`, end to end: the
answer is recorded, the cursor advances, and the graph routes to the summary
node exactly when the questions are exhausted. -/
theorem advance_no_followup (st : GState) (input : String) (outcome : Analysis)
    (gen : Except String String) (ha : st.is_awaiting_follow_up_answer = false)
    (hfu : analysisFollowUp outcome = none) :
    advance st input outcome gen =
      (if st.technical_questions.length ≤ st.tech_question_index + 1 then
        generate_summary_node { st with
          user_input := input,
          current_question_key := st.technical_questions.getD st.tech_question_index "",
          technical_answers := dictInsert st.technical_answers
            (st.technical_questions.getD st.tech_question_index "")
            ⟨input, analysisSentiment outcome⟩,
          is_awaiting_follow_up_answer := false,
          tech_question_index := st.tech_question_index + 1 } gen
      else { st with
        user_input := input,
        current_question_key := st.technical_questions.getD st.tech_question_index "",
        technical_answers := dictInsert st.technical_answers
          (st.technical_questions.getD st.tech_question_index "")
          ⟨input, analysisSentiment outcome⟩,
        is_awaiting_follow_up_answer := false,
        tech_question_index := st.tech_question_index + 1 }) := by
  unfold advance
  rw [analyze_prep_no_followup st input outcome ha hfu]
  by_cases hle : st.technical_questions.length ≤ st.tech_question_index + 1
  · have hroute : should_continue { st with
        user_input := input,
        current_question_key := st.technical_questions.getD st.tech_question_index "",
        technical_answers := dictInsert st.technical_answers
          (st.technical_questions.getD st.tech_question_index "")
          ⟨input, analysisSentiment outcome⟩,
        is_awaiting_follow_up_answer := false,
        tech_question_index := st.tech_question_index + 1 } = Route.generateSummary := by
      simp [should_continue, hle]
    rw [hroute, if_pos hle]
  · have hroute : should_continue { st with
        user_input := input,
        current_question_key := st.technical_questions.getD st.tech_question_index "",
        technical_answers := dictInsert st.technical_answers
          (st.technical_questions.getD st.tech_question_index "")
          ⟨input, analysisSentiment outcome⟩,
        is_awaiting_follow_up_answer := false,
        tech_question_index := st.tech_question_index + 1 } = Route.askNextQuestion := by
      simp [should_continue, hle]
    rw [hroute, if_neg hle]

end Graph

/-- Claim C2: for every session reachable from a freshly generated question
list and every user interaction, the cursor either stays put or increments by
one, and it never exceeds the number of questions. -/
theorem claim2_cursor_monotone (qs : List String) (hqs : qs ≠ [])
    (s s' : Screener.SState)
    (hreach : Screener.Reachable (Screener.initState qs) s)
    (hstep : Screener.Step s s') :
    (s'.tech_question_index = s.tech_question_index ∨
      s'.tech_question_index = s.tech_question_index + 1) ∧
    s'.tech_question_index ≤ s'.technical_questions.length := by
  refine ⟨Screener.step_index hstep, ?_⟩
  exact (Screener.inv_reachable qs hqs s'
    (Screener.Reachable.tail hreach hstep)).1

/-- Witness for C2 at a concrete one-question session and one answer. -/
theorem claim2_cursor_monotone_witness :
    ((Screener.advance (Screener.initState ["q"]) "a" none).tech_question_index =
        (Screener.initState ["q"]).tech_question_index ∨
      (Screener.advance (Screener.initState ["q"]) "a" none).tech_question_index =
        (Screener.initState ["q"]).tech_question_index + 1) ∧
    (Screener.advance (Screener.initState ["q"]) "a" none).tech_question_index ≤
      (Screener.advance (Screener.initState ["q"]) "a" none).technical_questions.length :=
  claim2_cursor_monotone ["q"] (by decide) _ _ (Screener.Reachable.refl _)
    (Screener.Step.advanceStep _ "a" none rfl)

/-- Claim C10: the answers dict is keyed by question text, so with two equal
questions the second main answer overwrites the first entry: after both are
answered the dict holds one entry (the later answer), fewer than the two main
questions answered. -/
theorem claim10_duplicate_overwrite (q a1 a2 : String) :
    (Screener.advance (Screener.advance (Screener.initState [q, q]) a1 none)
        a2 none).technical_answers = [(q, a2)] ∧
    (Screener.advance (Screener.advance (Screener.initState [q, q]) a1 none)
        a2 none).technical_answers.length = 1 ∧
    (1 : Nat) < 2 := by
  refine ⟨?_, ?_, by omega⟩ <;>
    simp [Screener.advance, Screener.advCore, Screener.afterCheck,
      Screener.initState, Screener.generate_follow_up_question, dictInsert]

/-- Claim C7: `request_easier_question` (the "Easier Question" handler in the
screener and `generate_easier_question_node` in the graph) replaces only the
question at the cursor and the content of the last transcript turn, inserting
no turn; the cursor, flag, answers, stage/summary and every other question and
transcript entry are unchanged, for any generator outcome, with the fixed
fallback question substituted on failure. -/
theorem claim7_easier_frame (s : Screener.SState) (g : Option String)
    (st : Graph.GState) (g2 : Option String)
    (hidx : s.tech_question_index < s.technical_questions.length)
    (hmsg : s.messages ≠ [])
    (hidx2 : st.tech_question_index < st.technical_questions.length)
    (hmsg2 : st.messages ≠ []) :
    ((Screener.easierClick s g).tech_question_index = s.tech_question_index ∧
     (Screener.easierClick s g).is_awaiting_follow_up_answer =
       s.is_awaiting_follow_up_answer ∧
     (Screener.easierClick s g).technical_answers = s.technical_answers ∧
     (Screener.easierClick s g).conversation_stage = s.conversation_stage ∧
     (Screener.easierClick s g).technical_questions.length =
       s.technical_questions.length ∧
     (Screener.easierClick s g).technical_questions[s.tech_question_index]? =
       some (Screener.generate_easier_question g) ∧
     (∀ i, i ≠ s.tech_question_index →
       (Screener.easierClick s g).technical_questions[i]? =
         s.technical_questions[i]?) ∧
     (Screener.easierClick s g).messages.length = s.messages.length ∧
     (Screener.easierClick s g).messages[s.messages.length - 1]? =
       some ⟨"assistant", Screener.generate_easier_question g⟩ ∧
     (∀ i, i ≠ s.messages.length - 1 →
       (Screener.easierClick s g).messages[i]? = s.messages[i]?)) ∧
    ((Graph.generate_easier_question_node st g2).tech_question_index =
       st.tech_question_index ∧
     (Graph.generate_easier_question_node st g2).is_awaiting_follow_up_answer =
       st.is_awaiting_follow_up_answer ∧
     (Graph.generate_easier_question_node st g2).technical_answers =
       st.technical_answers ∧
     (Graph.generate_easier_question_node st g2).final_summary =
       st.final_summary ∧
     (Graph.generate_easier_question_node st g2).technical_questions.length =
       st.technical_questions.length ∧
     (Graph.generate_easier_question_node st g2).technical_questions[st.tech_question_index]? =
       some (g2.getD easierFallbackQuestion) ∧
     (∀ i, i ≠ st.tech_question_index →
       (Graph.generate_easier_question_node st g2).technical_questions[i]? =
         st.technical_questions[i]?) ∧
     (Graph.generate_easier_question_node st g2).messages.length =
       st.messages.length ∧
     (Graph.generate_easier_question_node st g2).messages[st.messages.length - 1]? =
       some ⟨"assistant", g2.getD easierFallbackQuestion⟩ ∧
     (∀ i, i ≠ st.messages.length - 1 →
       (Graph.generate_easier_question_node st g2).messages[i]? =
         st.messages[i]?)) ∧
    Screener.generate_easier_question none = easierFallbackQuestion ∧
    (none : Option String).getD easierFallbackQuestion = easierFallbackQuestion := by
  have hm : s.messages.length - 1 < s.messages.length := by
    have := List.length_pos.mpr hmsg
    omega
  have hm2 : st.messages.length - 1 < st.messages.length := by
    have := List.length_pos.mpr hmsg2
    omega
  refine ⟨⟨rfl, rfl, rfl, rfl, ?_, ?_, ?_, ?_, ?_, ?_⟩,
    ⟨rfl, rfl, rfl, rfl, ?_, ?_, ?_, ?_, ?_, ?_⟩, rfl, rfl⟩
  · simp [Screener.easierClick]
  · simp [Screener.easierClick, List.getElem?_set_self, hidx]
  · intro i hi
    simp [Screener.easierClick, List.getElem?_set_ne (Ne.symm hi)]
  · simp [Screener.easierClick, setLast]
  · simp [Screener.easierClick, setLast, List.getElem?_set_self, hm]
  · intro i hi
    simp [Screener.easierClick, setLast, List.getElem?_set_ne (Ne.symm hi)]
  · simp [Graph.generate_easier_question_node]
  · simp [Graph.generate_easier_question_node, List.getElem?_set_self, hidx2]
  · intro i hi
    simp [Graph.generate_easier_question_node, List.getElem?_set_ne (Ne.symm hi)]
  · simp [Graph.generate_easier_question_node, setLast]
  · simp [Graph.generate_easier_question_node, setLast, List.getElem?_set_self, hm2]
  · intro i hi
    simp [Graph.generate_easier_question_node, setLast,
      List.getElem?_set_ne (Ne.symm hi)]

/-- Witness for C7 at a concrete in-progress session (`gnone` abbreviates the
failed generator outcome). -/
theorem claim7_easier_frame_witness :
    ((Screener.easierClick (Screener.initState ["q1"]) gnone).tech_question_index = (Screener.initState ["q1"]).tech_question_index ∧
     (Screener.easierClick (Screener.initState ["q1"]) gnone).is_awaiting_follow_up_answer =
       (Screener.initState ["q1"]).is_awaiting_follow_up_answer ∧
     (Screener.easierClick (Screener.initState ["q1"]) gnone).technical_answers = (Screener.initState ["q1"]).technical_answers ∧
     (Screener.easierClick (Screener.initState ["q1"]) gnone).conversation_stage = (Screener.initState ["q1"]).conversation_stage ∧
     (Screener.easierClick (Screener.initState ["q1"]) gnone).technical_questions.length =
       (Screener.initState ["q1"]).technical_questions.length ∧
     (Screener.easierClick (Screener.initState ["q1"]) gnone).technical_questions[(Screener.initState ["q1"]).tech_question_index]? =
       some (Screener.generate_easier_question gnone) ∧
     (∀ i, i ≠ (Screener.initState ["q1"]).tech_question_index →
       (Screener.easierClick (Screener.initState ["q1"]) gnone).technical_questions[i]? =
         (Screener.initState ["q1"]).technical_questions[i]?) ∧
     (Screener.easierClick (Screener.initState ["q1"]) gnone).messages.length = (Screener.initState ["q1"]).messages.length ∧
     (Screener.easierClick (Screener.initState ["q1"]) gnone).messages[(Screener.initState ["q1"]).messages.length - 1]? =
       some ⟨"assistant", Screener.generate_easier_question gnone⟩ ∧
     (∀ i, i ≠ (Screener.initState ["q1"]).messages.length - 1 →
       (Screener.easierClick (Screener.initState ["q1"]) gnone).messages[i]? = (Screener.initState ["q1"]).messages[i]?)) ∧
    ((Graph.generate_easier_question_node (Graph.initState ["q1"]) gnone).tech_question_index =
       (Graph.initState ["q1"]).tech_question_index ∧
     (Graph.generate_easier_question_node (Graph.initState ["q1"]) gnone).is_awaiting_follow_up_answer =
       (Graph.initState ["q1"]).is_awaiting_follow_up_answer ∧
     (Graph.generate_easier_question_node (Graph.initState ["q1"]) gnone).technical_answers =
       (Graph.initState ["q1"]).technical_answers ∧
     (Graph.generate_easier_question_node (Graph.initState ["q1"]) gnone).final_summary =
       (Graph.initState ["q1"]).final_summary ∧
     (Graph.generate_easier_question_node (Graph.initState ["q1"]) gnone).technical_questions.length =
       (Graph.initState ["q1"]).technical_questions.length ∧
     (Graph.generate_easier_question_node (Graph.initState ["q1"]) gnone).technical_questions[(Graph.initState ["q1"]).tech_question_index]? =
       some (gnone.getD easierFallbackQuestion) ∧
     (∀ i, i ≠ (Graph.initState ["q1"]).tech_question_index →
       (Graph.generate_easier_question_node (Graph.initState ["q1"]) gnone).technical_questions[i]? =
         (Graph.initState ["q1"]).technical_questions[i]?) ∧
     (Graph.generate_easier_question_node (Graph.initState ["q1"]) gnone).messages.length =
       (Graph.initState ["q1"]).messages.length ∧
     (Graph.generate_easier_question_node (Graph.initState ["q1"]) gnone).messages[(Graph.initState ["q1"]).messages.length - 1]? =
       some ⟨"assistant", gnone.getD easierFallbackQuestion⟩ ∧
     (∀ i, i ≠ (Graph.initState ["q1"]).messages.length - 1 →
       (Graph.generate_easier_question_node (Graph.initState ["q1"]) gnone).messages[i]? =
         (Graph.initState ["q1"]).messages[i]?)) ∧
    Screener.generate_easier_question none = easierFallbackQuestion ∧
    (none : Option String).getD easierFallbackQuestion = easierFallbackQuestion :=
  claim7_easier_frame (Screener.initState ["q1"]) gnone (Graph.initState ["q1"]) gnone
    (by decide) (by decide) (by decide) (by decide)

/-- Claim C8: the follow-up flag is set by an `advance` exactly when the answer
was a main-question answer and the follow-up generation returned a (non-null)
follow-up; any answer while the flag is set clears it; the easier-question
handler never touches it; and every reachable concluded session has the flag
cleared. -/
theorem claim8_awaiting_invariant :
    (∀ (s : Screener.SState) (prompt : String) (fuGen : Option String),
      (Screener.advance s prompt fuGen).is_awaiting_follow_up_answer = true ↔
        (s.is_awaiting_follow_up_answer = false ∧ fuGen.isSome = true)) ∧
    (∀ (s : Screener.SState) (gen : Option String),
      (Screener.easierClick s gen).is_awaiting_follow_up_answer =
        s.is_awaiting_follow_up_answer) ∧
    (∀ (qs : List String) (s : Screener.SState), qs ≠ [] →
      Screener.Reachable (Screener.initState qs) s →
      s.conversation_stage = Screener.Stage.concluding →
      s.is_awaiting_follow_up_answer = false) := by
  refine ⟨?_, ?_, ?_⟩
  · intro s prompt fuGen
    rw [show Screener.advance s prompt fuGen =
      Screener.afterCheck (Screener.advCore s prompt fuGen) from rfl,
      (Screener.afterCheck_fields (Screener.advCore s prompt fuGen)).2.2.2]
    cases ha : s.is_awaiting_follow_up_answer with
    | true =>
      rw [Screener.advCore_followUpCase s prompt fuGen ha]
      simp [ha]
    | false =>
      cases fuGen with
      | some t =>
        rw [Screener.advCore_mainCase_some s prompt t ha]
        simp [ha]
      | none =>
        rw [Screener.advCore_mainCase_none s prompt ha]
        simp [ha]
  · intro s gen
    rfl
  · intro qs s hqs hreach hc
    exact (Screener.inv_reachable qs hqs s hreach).2.2 hc

/-- Witness for C8: a follow-up sets the flag on a fresh one-question session;
a no-follow-up answer concludes the session with the flag cleared. -/
theorem claim8_awaiting_invariant_witness :
    ((Screener.advance (Screener.initState ["q"]) "a" (some "f")).is_awaiting_follow_up_answer = true ↔
      ((Screener.initState ["q"]).is_awaiting_follow_up_answer = false ∧
        (some "f" : Option String).isSome = true)) ∧
    (Screener.advance (Screener.initState ["q"]) "a" none).is_awaiting_follow_up_answer = false :=
  ⟨claim8_awaiting_invariant.1 (Screener.initState ["q"]) "a" (some "f"),
   claim8_awaiting_invariant.2.2 ["q"]
     (Screener.advance (Screener.initState ["q"]) "a" none) (by decide)
     (Screener.Reachable.tail (Screener.Reachable.refl _)
       (Screener.Step.advanceStep _ "a" none rfl)) (by decide)⟩

/-- Counterexample to C9: in `FOLLOW_UP_PENDING` the "Easier Question" button
is still rendered, and clicking it mutates both the question list and the last
transcript turn (the pending follow-up) instead of being rejected or a no-op. -/
theorem claim9_counterexample :
    c9State.is_awaiting_follow_up_answer = true ∧
    (Screener.easierClick c9State none).technical_questions =
      [easierFallbackQuestion] ∧
    (Screener.easierClick c9State none).technical_questions ≠
      c9State.technical_questions ∧
    (Screener.easierClick c9State none).messages ≠ c9State.messages := by
  decide

/-- Claim C9 amended: in `CONCLUDED` no interaction (including the easier
question) is possible, but while `awaiting_follow_up` is true the operation is
still invocable and overwrites the question at the cursor and the last
transcript turn, leaving the cursor, flag and answers unchanged. -/
theorem claim9_amended :
    (∀ s s' : Screener.SState, s.conversation_stage = Screener.Stage.concluding →
      ¬ Screener.Step s s') ∧
    (∀ (s : Screener.SState) (gen : Option String),
      s.is_awaiting_follow_up_answer = true →
      (Screener.easierClick s gen).technical_questions =
        s.technical_questions.set s.tech_question_index
          (Screener.generate_easier_question gen) ∧
      (Screener.easierClick s gen).messages =
        setLast s.messages ⟨"assistant", Screener.generate_easier_question gen⟩ ∧
      (Screener.easierClick s gen).tech_question_index = s.tech_question_index ∧
      (Screener.easierClick s gen).is_awaiting_follow_up_answer = true ∧
      (Screener.easierClick s gen).technical_answers = s.technical_answers) := by
  refine ⟨?_, ?_⟩
  · intro s s' hs hstep
    cases hstep with
    | advanceStep prompt fuGen h => rw [hs] at h; cases h
    | easierStep gen h => rw [hs] at h; cases h
  · intro s gen hs
    exact ⟨rfl, rfl, rfl, hs, rfl⟩

/-- Witness for the amended C9 at the concrete paused session. -/
theorem claim9_amended_witness :
    (Screener.easierClick c9State none).technical_questions =
      c9State.technical_questions.set c9State.tech_question_index
        (Screener.generate_easier_question none) ∧
    (Screener.easierClick c9State none).messages =
      setLast c9State.messages ⟨"assistant", Screener.generate_easier_question none⟩ ∧
    (Screener.easierClick c9State none).tech_question_index =
      c9State.tech_question_index ∧
    (Screener.easierClick c9State none).is_awaiting_follow_up_answer = true ∧
    (Screener.easierClick c9State none).technical_answers =
      c9State.technical_answers :=
  claim9_amended.2 c9State none rfl

namespace Graph

/-- How `analyze_answer_node` acts on a prepared follow-up answer: the text is
concatenated onto the record under the cursor's question key, the flag clears,
the cursor advances; the analyzer outcome is never consulted. -/
theorem analyze_prep_followUp (st : GState) (input : String) (outcome : Analysis)
    (ha : st.is_awaiting_follow_up_answer = true) :
    analyze_answer_node (prepInput st input) outcome =
      { st with
        user_input := input,
        current_question_key := st.technical_questions.getD st.tech_question_index "",
        technical_answers := dictModify st.technical_answers
          (st.technical_questions.getD st.tech_question_index "")
          (fun a => { a with
            answer := a.answer ++ "\n\n*Follow-up Answer:*\n" ++ input }),
        is_awaiting_follow_up_answer := false,
        tech_question_index := st.tech_question_index + 1 } := by
  simp [analyze_answer_node, prepInput, ha]

/-- One follow-up answer, end to end through the graph. -/
theorem advance_followUp (st : GState) (input : String) (outcome : Analysis)
    (gen : Except String String) (ha : st.is_awaiting_follow_up_answer = true) :
    advance st input outcome gen =
      (if st.technical_questions.length ≤ st.tech_question_index + 1 then
        generate_summary_node { st with
          user_input := input,
          current_question_key := st.technical_questions.getD st.tech_question_index "",
          technical_answers := dictModify st.technical_answers
            (st.technical_questions.getD st.tech_question_index "")
            (fun a => { a with
              answer := a.answer ++ "\n\n*Follow-up Answer:*\n" ++ input }),
          is_awaiting_follow_up_answer := false,
          tech_question_index := st.tech_question_index + 1 } gen
      else { st with
        user_input := input,
        current_question_key := st.technical_questions.getD st.tech_question_index "",
        technical_answers := dictModify st.technical_answers
          (st.technical_questions.getD st.tech_question_index "")
          (fun a => { a with
            answer := a.answer ++ "\n\n*Follow-up Answer:*\n" ++ input }),
        is_awaiting_follow_up_answer := false,
        tech_question_index := st.tech_question_index + 1 }) := by
  unfold advance
  rw [analyze_prep_followUp st input outcome ha]
  by_cases hle : st.technical_questions.length ≤ st.tech_question_index + 1
  · have hroute : should_continue { st with
        user_input := input,
        current_question_key := st.technical_questions.getD st.tech_question_index "",
        technical_answers := dictModify st.technical_answers
          (st.technical_questions.getD st.tech_question_index "")
          (fun a => { a with
            answer := a.answer ++ "\n\n*Follow-up Answer:*\n" ++ input }),
        is_awaiting_follow_up_answer := false,
        tech_question_index := st.tech_question_index + 1 } =
          Route.generateSummary := by
      simp [should_continue, hle]
    rw [hroute, if_pos hle]
  · have hroute : should_continue { st with
        user_input := input,
        current_question_key := st.technical_questions.getD st.tech_question_index "",
        technical_answers := dictModify st.technical_answers
          (st.technical_questions.getD st.tech_question_index "")
          (fun a => { a with
            answer := a.answer ++ "\n\n*Follow-up Answer:*\n" ++ input }),
        is_awaiting_follow_up_answer := false,
        tech_question_index := st.tech_question_index + 1 } =
          Route.askNextQuestion := by
      simp [should_continue, hle]
    rw [hroute, if_neg hle]

/-- The graph routing never changes the recorded answers beyond what
`analyze_answer_node` wrote. -/
theorem advance_answers_eq (st : GState) (input : String) (outcome : Analysis)
    (gen : Except String String) :
    (advance st input outcome gen).technical_answers =
      (analyze_answer_node (prepInput st input) outcome).technical_answers := by
  unfold advance
  cases h : should_continue (analyze_answer_node (prepInput st input) outcome) <;>
    simp [h, (gsummary_fields _ gen).2.1]

end Graph

/-- Counterexample to C3: the graph implementation appends
`"\n\n*Follow-up Answer:*\n" + user_input`, not
`"\nFollow-up Answer: " + user_input`, to the recorded answer. -/
theorem claim3_counterexample :
    c3State.is_awaiting_follow_up_answer = true ∧
    dictGet (Graph.advance c3State "B1" none (Except.ok "sum")).technical_answers
        "Q1" =
      some ⟨"A1" ++ "\n\n*Follow-up Answer:*\n" ++ "B1", "Neutral"⟩ ∧
    "A1" ++ "\n\n*Follow-up Answer:*\n" ++ "B1" ≠
      "A1" ++ "\nFollow-up Answer: " ++ "B1" := by
  decide

/-- Claim C3 amended: a follow-up answer is concatenated onto the answer
recorded for the question at the cursor — as `"\nFollow-up Answer: " + input`
in the screener and as `"\n\n*Follow-up Answer:*\n" + input` in the graph —
other entries are untouched, the flag clears, the cursor advances by one, and
the follow-up generation outcome is never consulted (no generation call). -/
theorem claim3_amended :
    (∀ (s : Screener.SState) (prompt : String) (fu1 fu2 : Option String),
      s.is_awaiting_follow_up_answer = true →
      dictGet (Screener.advance s prompt fu1).technical_answers
          (s.technical_questions.getD s.tech_question_index "") =
        (dictGet s.technical_answers
          (s.technical_questions.getD s.tech_question_index "")).map
          (fun a => a ++ "\nFollow-up Answer: " ++ prompt) ∧
      (∀ k, k ≠ s.technical_questions.getD s.tech_question_index "" →
        dictGet (Screener.advance s prompt fu1).technical_answers k =
          dictGet s.technical_answers k) ∧
      (Screener.advance s prompt fu1).is_awaiting_follow_up_answer = false ∧
      (Screener.advance s prompt fu1).tech_question_index =
        s.tech_question_index + 1 ∧
      Screener.advance s prompt fu1 = Screener.advance s prompt fu2) ∧
    (∀ (st : Graph.GState) (input : String) (o1 o2 : Graph.Analysis)
        (gen : Except String String),
      st.is_awaiting_follow_up_answer = true →
      dictGet (Graph.advance st input o1 gen).technical_answers
          (st.technical_questions.getD st.tech_question_index "") =
        (dictGet st.technical_answers
          (st.technical_questions.getD st.tech_question_index "")).map
          (fun a => { a with
            answer := a.answer ++ "\n\n*Follow-up Answer:*\n" ++ input }) ∧
      (Graph.advance st input o1 gen).is_awaiting_follow_up_answer = false ∧
      (Graph.advance st input o1 gen).tech_question_index =
        st.tech_question_index + 1 ∧
      Graph.advance st input o1 gen = Graph.advance st input o2 gen) := by
  constructor
  · intro s prompt fu1 fu2 ha
    have hfields := Screener.afterCheck_fields (Screener.advCore s prompt fu1)
    refine ⟨?_, ?_, ?_, ?_, ?_⟩
    · rw [show Screener.advance s prompt fu1 =
        Screener.afterCheck (Screener.advCore s prompt fu1) from rfl,
        hfields.2.1, Screener.advCore_followUpCase s prompt fu1 ha]
      exact dictGet_dictModify_self _ _ _
    · intro k hk
      rw [show Screener.advance s prompt fu1 =
        Screener.afterCheck (Screener.advCore s prompt fu1) from rfl,
        hfields.2.1, Screener.advCore_followUpCase s prompt fu1 ha]
      exact dictGet_dictModify_ne _ _ _ _ hk
    · rw [show Screener.advance s prompt fu1 =
        Screener.afterCheck (Screener.advCore s prompt fu1) from rfl,
        hfields.2.2.2, Screener.advCore_followUpCase s prompt fu1 ha]
    · rw [show Screener.advance s prompt fu1 =
        Screener.afterCheck (Screener.advCore s prompt fu1) from rfl,
        hfields.2.2.1, Screener.advCore_followUpCase s prompt fu1 ha]
    · show Screener.afterCheck (Screener.advCore s prompt fu1) =
        Screener.afterCheck (Screener.advCore s prompt fu2)
      rw [Screener.advCore_followUpCase s prompt fu1 ha,
        Screener.advCore_followUpCase s prompt fu2 ha]
  · intro st input o1 o2 gen ha
    rw [Graph.advance_followUp st input o1 gen ha,
      Graph.advance_followUp st input o2 gen ha]
    by_cases hle : st.technical_questions.length ≤ st.tech_question_index + 1
    · rw [if_pos hle]
      refine ⟨?_, ?_, ?_, rfl⟩
      · rw [(Graph.gsummary_fields _ gen).2.1]
        exact dictGet_dictModify_self _ _ _
      · rw [(Graph.gsummary_fields _ gen).2.2.2.1]
      · rw [(Graph.gsummary_fields _ gen).2.2.1]
    · rw [if_neg hle]
      exact ⟨dictGet_dictModify_self _ _ _, rfl, rfl, rfl⟩

/-- Witness for the amended C3 at the concrete paused sessions. -/
theorem claim3_amended_witness :
    dictGet (Screener.advance c9State "B" none).technical_answers
        (c9State.technical_questions.getD c9State.tech_question_index "") =
      (dictGet c9State.technical_answers
        (c9State.technical_questions.getD c9State.tech_question_index "")).map
        (fun a => a ++ "\nFollow-up Answer: " ++ "B") ∧
    dictGet (Graph.advance c3State "B1" none (Except.ok "s")).technical_answers
        (c3State.technical_questions.getD c3State.tech_question_index "") =
      (dictGet c3State.technical_answers
        (c3State.technical_questions.getD c3State.tech_question_index "")).map
        (fun a => { a with
          answer := a.answer ++ "\n\n*Follow-up Answer:*\n" ++ "B1" }) :=
  ⟨(claim3_amended.1 c9State "B" none none rfl).1,
   (claim3_amended.2 c3State "B1" none none (Except.ok "s") rfl).1⟩

/-- Counterexample to C4: the screener records the bare user input string under
the question key — no `{answer_text, sentiment}` record and no sentiment
anywhere in the stored value. -/
theorem claim4_counterexample :
    (Screener.advance (Screener.initState ["Q1"]) "my answer" none).technical_answers =
      [("Q1", "my answer")] ∧
    (∀ sent ∈ ["Confident", "Neutral", "Hesitant", "N/A"],
      ¬ strContains "my answer" sent) := by
  decide

/-- Claim C4 amended: in the graph implementation a main-question answer is
recorded as `{answer: user_input, sentiment: s}` where `s` is the sentiment
string parsed from the analyzer's JSON reply, or the sentinel "N/A" when the
field is missing or the call fails; the screener implementation instead maps
the question to the bare answer string with no sentiment. -/
theorem claim4_amended :
    (∀ (st : Graph.GState) (input : String) (outcome : Graph.Analysis)
        (gen : Except String String),
      st.is_awaiting_follow_up_answer = false →
      dictGet (Graph.advance st input outcome gen).technical_answers
          (st.technical_questions.getD st.tech_question_index "") =
        some ⟨input, Graph.analysisSentiment outcome⟩) ∧
    Graph.analysisSentiment none = "N/A" ∧
    (∀ fu : Option String, Graph.analysisSentiment (some (none, fu)) = "N/A") ∧
    (∀ (s : Screener.SState) (prompt : String) (fuGen : Option String),
      s.is_awaiting_follow_up_answer = false →
      dictGet (Screener.advance s prompt fuGen).technical_answers
          (s.technical_questions.getD s.tech_question_index "") = some prompt) := by
  refine ⟨?_, rfl, fun fu => rfl, ?_⟩
  · intro st input outcome gen ha
    rw [Graph.advance_answers_eq st input outcome gen,
      Graph.analyze_mainCase_answers (Graph.prepInput st input) outcome
        (show (Graph.prepInput st input).is_awaiting_follow_up_answer = false from ha)]
    exact dictGet_dictInsert_self _ _ _
  · intro s prompt fuGen ha
    rw [show Screener.advance s prompt fuGen =
      Screener.afterCheck (Screener.advCore s prompt fuGen) from rfl,
      (Screener.afterCheck_fields _).2.1]
    cases fuGen with
    | some t =>
      rw [Screener.advCore_mainCase_some s prompt t ha]
      exact dictGet_dictInsert_self _ _ _
    | none =>
      rw [Screener.advCore_mainCase_none s prompt ha]
      exact dictGet_dictInsert_self _ _ _

/-- Witness for the amended C4 at fresh one-question sessions. -/
theorem claim4_amended_witness :
    dictGet (Graph.advance (Graph.initState ["Q1"]) "ans"
        (some (some "Confident", none)) (Except.ok "s")).technical_answers
        ((Graph.initState ["Q1"]).technical_questions.getD
          (Graph.initState ["Q1"]).tech_question_index "") =
      some ⟨"ans", Graph.analysisSentiment (some (some "Confident", none))⟩ ∧
    dictGet (Screener.advance (Screener.initState ["Q1"]) "ans" none).technical_answers
        ((Screener.initState ["Q1"]).technical_questions.getD
          (Screener.initState ["Q1"]).tech_question_index "") = some "ans" :=
  ⟨claim4_amended.1 (Graph.initState ["Q1"]) "ans" (some (some "Confident", none))
      (Except.ok "s") rfl,
   claim4_amended.2.2.2 (Screener.initState ["Q1"]) "ans" none rfl⟩

theorem mem_map_pyStrip (l : List String) (q : String) (h : q ∈ l.map pyStrip) :
    pyStrip q = q := by
  rw [List.mem_map] at h
  obtain ⟨y, _, rfl⟩ := h
  exact pyStrip_idem y

/-- Claim C5: for every generator outcome the question synthesizer
(`generate_questions_node` / `TechnicalAssessorAgent.generate_questions`)
returns a non-empty list of whitespace-trimmed strings; on failure or a
zero-item parse it returns exactly the fixed two-item fallback list; and the
two implementations agree. -/
theorem claim5_synthesizer_fallback (outcome : Option String) :
    Graph.generate_questions_node_qs outcome ≠ [] ∧
    (∀ q ∈ Graph.generate_questions_node_qs outcome, pyStrip q = q) ∧
    (outcome = none →
      Graph.generate_questions_node_qs outcome = fallback_questions) ∧
    (∀ t, outcome = some t → findNumbered t.data = [] →
      Graph.generate_questions_node_qs outcome = fallback_questions) ∧
    Graph.generate_questions_node_qs outcome =
      Screener.generate_questions outcome := by
  have hfb : fallback_questions.map pyStrip = fallback_questions := by decide
  cases outcome with
  | none =>
    refine ⟨?_, ?_, fun _ => hfb, ?_, ?_⟩
    · show fallback_questions.map pyStrip ≠ []
      decide
    · intro q hq
      exact mem_map_pyStrip _ q hq
    · intro t ht
      cases ht
    · show fallback_questions.map pyStrip = fallback_questions
      exact hfb
  | some t =>
    by_cases hq : findNumbered t.data = []
    · refine ⟨?_, ?_, ?_, ?_, ?_⟩
      · show (if findNumbered t.data = [] then fallback_questions
          else findNumbered t.data).map pyStrip ≠ []
        rw [if_pos hq]
        decide
      · intro q hmem
        exact mem_map_pyStrip _ q hmem
      · intro hn
        cases hn
      · intro t2 ht2 _
        show (if findNumbered t.data = [] then fallback_questions
          else findNumbered t.data).map pyStrip = fallback_questions
        rw [if_pos hq]
        exact hfb
      · show (if findNumbered t.data = [] then fallback_questions
          else findNumbered t.data).map pyStrip =
          (if findNumbered t.data = [] then fallback_questions
          else (findNumbered t.data).map pyStrip)
        rw [if_pos hq, if_pos hq]
        exact hfb
    · refine ⟨?_, ?_, ?_, ?_, ?_⟩
      · show (if findNumbered t.data = [] then fallback_questions
          else findNumbered t.data).map pyStrip ≠ []
        rw [if_neg hq]
        exact fun hcon => hq (by simpa using hcon)
      · intro q hmem
        exact mem_map_pyStrip _ q hmem
      · intro hn
        cases hn
      · intro t2 ht2 hz
        cases ht2
        exact absurd hz hq
      · show (if findNumbered t.data = [] then fallback_questions
          else findNumbered t.data).map pyStrip =
          (if findNumbered t.data = [] then fallback_questions
          else (findNumbered t.data).map pyStrip)
        rw [if_neg hq, if_neg hq]

/-- Witness for C5 at a failed generation call. -/
theorem claim5_synthesizer_fallback_witness :
    Graph.generate_questions_node_qs none ≠ [] ∧
    Graph.generate_questions_node_qs none = fallback_questions :=
  ⟨(claim5_synthesizer_fallback none).1,
   (claim5_synthesizer_fallback none).2.2.1 rfl⟩

/-- Counterexample to C6: on a failed summary generation call the screener
returns its fixed literal without the error detail — here the detail
"quota exceeded" appears nowhere in the result, and the result does not depend
on the error at all. -/
theorem claim6_counterexample :
    Screener.summarize_performance [("Q1", "A1")] (Except.error "quota exceeded") =
      "Could not generate AI summary due to an error." ∧
    ¬ strContains "Could not generate AI summary due to an error."
      "quota exceeded" ∧
    Screener.summarize_performance [("Q1", "A1")] (Except.error "quota exceeded") =
      Screener.summarize_performance [("Q1", "A1")] (Except.error "other") := by
  decide

/-- Claim C6 amended: with empty answers both summarizers return exactly
"No technical answers were provided." and never consult the generator; with
non-empty answers and a failed call the graph summarizer returns the fixed
failure literal with the exception text appended (so the detail is embedded),
while the screener returns its fixed failure literal without the detail;
neither raises. -/
theorem claim6_amended (answers : List (String × String))
    (st : Graph.GState) (g1 g2 : Except String String) (e : String) :
    Screener.summarize_performance [] g1 = "No technical answers were provided." ∧
    Screener.summarize_performance [] g1 = Screener.summarize_performance [] g2 ∧
    (st.technical_answers = [] →
      (Graph.generate_summary_node st g1).final_summary =
        some "No technical answers were provided." ∧
      Graph.generate_summary_node st g1 = Graph.generate_summary_node st g2) ∧
    (answers ≠ [] →
      Screener.summarize_performance answers (Except.error e) =
        "Could not generate AI summary due to an error.") ∧
    (st.technical_answers ≠ [] →
      (Graph.generate_summary_node st (Except.error e)).final_summary =
        some ("Could not generate AI summary due to an error: " ++ e) ∧
      strContains ("Could not generate AI summary due to an error: " ++ e) e) := by
  refine ⟨rfl, rfl, ?_, ?_, ?_⟩
  · intro hemp
    constructor
    · simp [Graph.generate_summary_node, hemp]
    · simp [Graph.generate_summary_node, hemp]
  · intro hne
    simp [Screener.summarize_performance, hne]
  · intro hne
    constructor
    · simp [Graph.generate_summary_node, hne]
    · show e.data <:+: ("Could not generate AI summary due to an error: " ++ e).data
      rw [String.data_append]
      exact (List.suffix_append _ _).isInfix

/-- Witness for the amended C6 at concrete answer sets and a concrete error. -/
theorem claim6_amended_witness :
    Screener.summarize_performance [] (Except.error "boom") =
      "No technical answers were provided." ∧
    Screener.summarize_performance [("Q1", "A1")] (Except.error "boom") =
      "Could not generate AI summary due to an error." ∧
    (Graph.generate_summary_node c3State (Except.error "boom")).final_summary =
      some ("Could not generate AI summary due to an error: " ++ "boom") :=
  ⟨(claim6_amended [("Q1", "A1")] c3State (Except.error "boom")
      (Except.error "boom") "boom").1,
   (claim6_amended [("Q1", "A1")] c3State (Except.error "boom")
      (Except.error "boom") "boom").2.2.2.1 (by decide),
   ((claim6_amended [("Q1", "A1")] c3State (Except.error "boom")
      (Except.error "boom") "boom").2.2.2.2 (by decide)).1⟩

/-- Claim C1: starting from a session with `N ≥ 1` generated questions in
`MAIN_QUESTION_PENDING`, if the analyzer returns no follow-up for every answer
then after exactly `N` advances the cursor equals `N` and the summary is set
(`CONCLUDED`), and before the `N`-th advance the summary is unset, the cursor
equals the number of advances so far, and the session is still answering main
questions. -/
theorem claim1_roundtrip (qs : List String) (N : Nat) (hlen : qs.length = N)
    (hN : 1 ≤ N) (inputs : Nat → String) (outcomes : Nat → Graph.Analysis)
    (hnofu : ∀ i, Graph.analysisFollowUp (outcomes i) = none)
    (gen : Except String String) :
    (∀ k, k < N →
      (Graph.advanceSeq (Graph.initState qs) inputs outcomes gen k).final_summary = none ∧
      (Graph.advanceSeq (Graph.initState qs) inputs outcomes gen k).tech_question_index = k ∧
      (Graph.advanceSeq (Graph.initState qs) inputs outcomes gen k).is_awaiting_follow_up_answer = false) ∧
    (Graph.advanceSeq (Graph.initState qs) inputs outcomes gen N).tech_question_index = N ∧
    (Graph.advanceSeq (Graph.initState qs) inputs outcomes gen N).final_summary.isSome = true := by
  have main : ∀ k, k ≤ N →
      (Graph.advanceSeq (Graph.initState qs) inputs outcomes gen k).technical_questions = qs ∧
      (Graph.advanceSeq (Graph.initState qs) inputs outcomes gen k).tech_question_index = k ∧
      (Graph.advanceSeq (Graph.initState qs) inputs outcomes gen k).is_awaiting_follow_up_answer = false ∧
      (k < N →
        (Graph.advanceSeq (Graph.initState qs) inputs outcomes gen k).final_summary = none) ∧
      (k = N →
        (Graph.advanceSeq (Graph.initState qs) inputs outcomes gen k).final_summary.isSome = true) := by
    intro k
    induction k with
    | zero =>
      intro _
      exact ⟨rfl, rfl, rfl, fun _ => rfl, fun h0 => absurd h0 (by omega)⟩
    | succ k ih =>
      intro hk1
      obtain ⟨hq, hi, hw, hsumnone, _⟩ := ih (by omega)
      set stk := Graph.advanceSeq (Graph.initState qs) inputs outcomes gen k with hstk
      have hnone : stk.final_summary = none := hsumnone (by omega)
      have hunf : Graph.advanceSeq (Graph.initState qs) inputs outcomes gen (k + 1) =
          Graph.advance stk (inputs k) (outcomes k) gen := rfl
      rw [hunf, Graph.advance_no_followup stk (inputs k) (outcomes k) gen hw (hnofu k)]
      by_cases hle : stk.technical_questions.length ≤ stk.tech_question_index + 1
      · rw [if_pos hle]
        refine ⟨?_, ?_, ?_, ?_, fun _ => ?_⟩
        · rw [(Graph.gsummary_fields _ gen).1]
          exact hq
        · rw [(Graph.gsummary_fields _ gen).2.2.1]
          show stk.tech_question_index + 1 = k + 1
          rw [hi]
        · rw [(Graph.gsummary_fields _ gen).2.2.2.1]
        · intro hlt
          exfalso
          rw [hq] at hle
          rw [hi] at hle
          omega
        · exact (Graph.gsummary_fields _ gen).2.2.2.2
      · rw [if_neg hle]
        refine ⟨hq, ?_, rfl, fun _ => hnone, fun hEq => ?_⟩
        · show stk.tech_question_index + 1 = k + 1
          rw [hi]
        · exfalso
          rw [hq] at hle
          rw [hi] at hle
          omega
  refine ⟨?_, ?_, ?_⟩
  · intro k hk
    obtain ⟨_, hi, hw, hs, _⟩ := main k (by omega)
    exact ⟨hs hk, hi, hw⟩
  · exact (main N le_rfl).2.1
  · exact (main N le_rfl).2.2.2.2 rfl

/-- Witness for C1 with one question and one no-follow-up answer. -/
theorem claim1_roundtrip_witness :
    (Graph.advanceSeq (Graph.initState ["q1"]) (fun _ => "a") (fun _ => none)
      (Except.ok "s") 1).tech_question_index = 1 ∧
    (Graph.advanceSeq (Graph.initState ["q1"]) (fun _ => "a") (fun _ => none)
      (Except.ok "s") 1).final_summary.isSome = true ∧
    (Graph.advanceSeq (Graph.initState ["q1"]) (fun _ => "a") (fun _ => none)
      (Except.ok "s") 0).final_summary = none :=
  ⟨(claim1_roundtrip ["q1"] 1 rfl (by omega) (fun _ => "a") (fun _ => none)
      (fun _ => rfl) (Except.ok "s")).2.1,
   (claim1_roundtrip ["q1"] 1 rfl (by omega) (fun _ => "a") (fun _ => none)
      (fun _ => rfl) (Except.ok "s")).2.2,
   ((claim1_roundtrip ["q1"] 1 rfl (by omega) (fun _ => "a") (fun _ => none)
      (fun _ => rfl) (Except.ok "s")).1 0 (by omega)).1⟩
